import Mathlib

/-!
# Touch-panel input adapter (`examples/lvgldemo/tp.c`) and the Twm4Nx window-event shim

A shallow embedding of the two source files.

* C `int` values are mathematical integers (`Int`); the `int` arithmetic of `tp.c` is
  modelled without wrap-around.
* The 16-bit fields of the C structures (`lv_coord_t` in `lv_point_t`, the `int16_t`
  coordinates of `touch_point_s`) and the display resolution carry their range, and the
  assignments of the `int` statics to `data->point` narrow to 16 bits (`to_lv_coord`).
* C `/` on `int` truncates toward zero (`Int.tdiv`).  A division by zero is undefined
  in C, so `c_div` has no result there and `tp_read` has no result when it reaches one.
* The file-scope and function-scope `static` variables of `tp.c` form the record
  `TpState`; every function takes the state and returns the new one.
* `open()` and `read()` are the environment: their results are arguments.
* Constants which `tp.c` takes from headers outside the tree (`LV_HOR_RES`,
  `LV_VER_RES`, the `TOUCH_*` flag masks, `sizeof(struct touch_sample_s)`) are the
  fields of `Config`.
-/

namespace Tp

/-! ## Data model -/

/-- Values of `lv_indev_state_t` used by the driver. -/
inductive lv_indev_state_t where
  | LV_INDEV_STATE_REL
  | LV_INDEV_STATE_PR
  deriving DecidableEq, Repr

/-- Range of `lv_coord_t`. The type is declared in the LVGL headers, outside the tree; it
is `int16_t` in LVGL's default configuration. The `int16_t` coordinates of a touch sample
have the same range. -/
def fits_lv_coord (n : Int) : Prop := -32768 ≤ n ∧ n ≤ 32767

instance fits_lv_coord_decidable (n : Int) : Decidable (fits_lv_coord n) := by
  unfold fits_lv_coord
  exact inferInstance

/-- Conversion of a C `int` to `lv_coord_t`, as done by the assignments to `data->point`
(lines 140-141 and 208-209): the value is kept when it fits and wraps around modulo `2^16`
otherwise (the conversion that the compilers used for NuttX define). -/
def to_lv_coord (n : Int) : Int := (n + 32768) % 65536 - 32768

/-- Display point `lv_point_t`: two `lv_coord_t` fields. -/
structure lv_point_t where
  x : Int
  y : Int
  x_fits : fits_lv_coord x := by decide
  y_fits : fits_lv_coord y := by decide
  deriving DecidableEq, Repr

/-- The point with the coordinates `a` and `b` converted to `lv_coord_t`. -/
def to_lv_point (a b : Int) : lv_point_t :=
  { x := to_lv_coord a
    y := to_lv_coord b
    x_fits := by
      unfold fits_lv_coord to_lv_coord
      omega
    y_fits := by
      unfold fits_lv_coord to_lv_coord
      omega }

/-- The part of `lv_indev_data_t` written by `tp_read`. -/
structure lv_indev_data_t where
  point : lv_point_t
  state : lv_indev_state_t
  deriving DecidableEq, Repr

/-- One entry of `touch_sample_s.point[]`: the `int16_t` raw coordinates and the flags
byte. -/
structure touch_point_s where
  x : Int
  y : Int
  flags : Nat
  x_fits : fits_lv_coord x := by decide
  y_fits : fits_lv_coord y := by decide
  deriving DecidableEq, Repr

/-- Sample `struct touch_sample_s`; the driver only looks at `point[0]`. -/
structure touch_sample_s where
  point0 : touch_point_s
  deriving DecidableEq, Repr

/-- Constants from headers that are not part of the source tree. The two resolutions are
`lv_coord_t` values. -/
structure Config where
  LV_HOR_RES : Int
  LV_VER_RES : Int
  TOUCH_DOWN : Nat
  TOUCH_MOVE : Nat
  TOUCH_UP : Nat
  sample_size : Nat
  hor_fits : fits_lv_coord LV_HOR_RES := by decide
  ver_fits : fits_lv_coord LV_VER_RES := by decide
  deriving DecidableEq, Repr

/-- The `static` variables of `tp.c` (lines 63-71) and of `tp_read` (lines 134-136). -/
structure TpState where
  fd : Int
  calibrated : Bool
  x_range : Int
  y_range : Int
  x_offset : Int
  y_offset : Int
  xy_inv : Bool
  x_inv : Bool
  y_inv : Bool
  last_x : Int
  last_y : Int
  last_state : lv_indev_state_t
  deriving DecidableEq, Repr

/-- State at program start: statics are zero-initialised, `last_state` starts released. -/
def TpState.init : TpState :=
  { fd := 0, calibrated := false, x_range := 0, y_range := 0, x_offset := 0, y_offset := 0,
    xy_inv := false, x_inv := false, y_inv := false,
    last_x := 0, last_y := 0, last_state := lv_indev_state_t.LV_INDEV_STATE_REL }

/-- The calibration data held in the state. -/
structure CalData where
  x_range : Int
  y_range : Int
  x_offset : Int
  y_offset : Int
  xy_inv : Bool
  x_inv : Bool
  y_inv : Bool
  calibrated : Bool
  deriving DecidableEq, Repr

/-- Projection of the state onto its calibration data. -/
def TpState.cal (s : TpState) : CalData :=
  { x_range := s.x_range, y_range := s.y_range, x_offset := s.x_offset,
    y_offset := s.y_offset, xy_inv := s.xy_inv, x_inv := s.x_inv, y_inv := s.y_inv,
    calibrated := s.calibrated }

/-- Result of one `read(fd, &sample, sizeof sample)`: byte count and buffer contents. -/
structure ReadOutcome where
  nbytes : Int
  sample : touch_sample_s
  deriving DecidableEq, Repr

/-- What one call of `tp_read` produces: return value, `*data`, and the new statics. -/
structure TpReadResult where
  ret : Bool
  data : lv_indev_data_t
  st : TpState
  deriving DecidableEq, Repr

/-! ## C arithmetic -/

/-- The `abs` of the C library. -/
def c_abs (n : Int) : Int := if n < 0 then -n else n

/-- C `a / b` on `int`: truncation toward zero, no result for a zero divisor. -/
def c_div (a b : Int) : Option Int := if b = 0 then none else some (Int.tdiv a b)

/-- Constant `OK` of the NuttX headers (the doc comment of `tp_init`: "Zero (OK)"). -/
def OK : Int := 0

/-! ## `tp_init` (lines 91-113) -/

/-- Function `tp_init`: `open_ret` is what `open()` returned. Gives the return value and the
new state. -/
def tp_init (open_ret : Int) (s : TpState) : Int × TpState :=
  let s1 := { s with fd := open_ret }
  if s1.fd < 0 then
    let errval : Int := 2
    (errval, s1)
  else
    (OK, s1)

/-! ## `tp_set_cal_values` (lines 233-294) -/

/-- Function `tp_set_cal_values`, statement by statement. The source never reads `lr`, and
it assigns the three flags only inside the `if`s. -/
def tp_set_cal_values (cfg : Config) (ul ur _lr ll : lv_point_t) (s : TpState) : TpState :=
  let s1 :=
    if c_abs (ul.x - ur.x) < Int.tdiv cfg.LV_HOR_RES 2 then { s with xy_inv := true } else s
  let s2 :=
    if s1.xy_inv then
      let a := if ur.y < ul.y then { s1 with x_inv := true } else s1
      let b := if ll.x < ul.x then { a with y_inv := true } else a
      { b with
        x_range := c_abs (ul.y - ur.y)
        y_range := c_abs (ul.x - ll.x)
        x_offset := if b.x_inv then ur.y else ul.y
        y_offset := if b.y_inv then ll.x else ul.x }
    else
      let a := if ur.x < ul.x then { s1 with x_inv := true } else s1
      let b := if ll.y < ul.y then { a with y_inv := true } else a
      { b with
        x_range := c_abs (ul.x - ur.x)
        y_range := c_abs (ul.y - ll.y)
        x_offset := if b.x_inv then ur.x else ul.x
        y_offset := if b.y_inv then ll.y else ul.y }
  { s2 with calibrated := true }

/-! ## `tp_read` (lines 130-214) -/

/-- C truth value of `flags & mask`. -/
def flag_set (flags mask : Nat) : Bool := (flags &&& mask) != 0

/-- The calibrated branch of `tp_read` (lines 160-187): the new `(last_x, last_y)`. -/
def tp_read_calibrated (cfg : Config) (s : TpState) (p : touch_point_s) : Option (Int × Int) := do
  let last_x := if s.xy_inv then p.y else p.x
  let last_y := if s.xy_inv then p.x else p.y
  let last_x := last_x - s.x_offset
  let last_y := last_y - s.y_offset
  let last_x ← c_div (last_x * cfg.LV_HOR_RES) s.x_range
  let last_y ← c_div (last_y * cfg.LV_VER_RES) s.y_range
  let last_x := if s.x_inv then cfg.LV_HOR_RES - last_x else last_x
  let last_y := if s.y_inv then cfg.LV_VER_RES - last_y else last_y
  pure (last_x, last_y)

/-- Function `tp_read`; `r` is the outcome of the `read()` at line 146.
No result (`none`) when a division by zero is reached. The statics `last_x`, `last_y` are
`int`; `data->point` holds them converted to `lv_coord_t`. -/
def tp_read (cfg : Config) (s : TpState) (r : ReadOutcome) : Option TpReadResult :=
  let data0 : lv_indev_data_t :=
    { point := to_lv_point s.last_x s.last_y, state := s.last_state }
  if r.nbytes < 0 ∨ r.nbytes ≠ (cfg.sample_size : Int) then
    some { ret := false, data := data0, st := s }
  else
    let p := r.sample.point0
    let upd : Option TpState :=
      if flag_set p.flags cfg.TOUCH_DOWN || flag_set p.flags cfg.TOUCH_MOVE then
        (if s.calibrated then
          (tp_read_calibrated cfg s p).map
            (fun q => { s with last_x := q.1, last_y := q.2 })
        else
          some { s with last_x := p.x, last_y := p.y }).map
          (fun t => { t with last_state := lv_indev_state_t.LV_INDEV_STATE_PR })
      else if flag_set p.flags cfg.TOUCH_UP then
        some { s with last_state := lv_indev_state_t.LV_INDEV_STATE_REL }
      else if flag_set p.flags cfg.TOUCH_UP then
        some { s with last_state := lv_indev_state_t.LV_INDEV_STATE_REL }
      else
        some s
    upd.map (fun t =>
      { ret := false
        data := { point := to_lv_point t.last_x t.last_y, state := t.last_state }
        st := t })

/-! ## Vocabulary of the calibration properties -/

/-- Raw coordinate of `p` on the axis used horizontally: `y` when the axes are swapped. -/
def raw_h (swap : Bool) (p : lv_point_t) : Int := if swap then p.y else p.x

/-- Raw coordinate of `p` on the axis used vertically: `x` when the axes are swapped. -/
def raw_v (swap : Bool) (p : lv_point_t) : Int := if swap then p.x else p.y

/-- A press sample: `TOUCH_DOWN` or `TOUCH_MOVE` is set in the flags. -/
def is_press (cfg : Config) (flags : Nat) : Bool :=
  flag_set flags cfg.TOUCH_DOWN || flag_set flags cfg.TOUCH_MOVE

/-- A `read()` that filled the whole sample buffer with `point[0] = p`. -/
def full_read (cfg : Config) (p : touch_point_s) : ReadOutcome :=
  { nbytes := (cfg.sample_size : Int), sample := { point0 := p } }

/-- One axis of the calibrated transform, for a non-zero range. -/
def axis_map (res off rng : Int) (inv : Bool) (raw : Int) : Int :=
  if inv then res - Int.tdiv ((raw - off) * res) rng else Int.tdiv ((raw - off) * res) rng

/-- A concrete configuration used in the examples: a 480x272 display, the NuttX flag
masks `TOUCH_DOWN = 1`, `TOUCH_MOVE = 2`, `TOUCH_UP = 4`, and a 16-byte sample. -/
def demo_cfg : Config :=
  { LV_HOR_RES := 480, LV_VER_RES := 272, TOUCH_DOWN := 1, TOUCH_MOVE := 2, TOUCH_UP := 4,
    sample_size := 16 }

/-- The point that `tp_read` reports for a full `TOUCH_DOWN` sample at raw point `p`, right
after calibrating the initial state with the given corners (`demo_cfg`). -/
def demo_report (ul ur lr ll p : lv_point_t) : Option lv_point_t :=
  (tp_read demo_cfg (tp_set_cal_values demo_cfg ul ur lr ll TpState.init)
    (full_read demo_cfg ⟨p.x, p.y, 1, p.x_fits, p.y_fits⟩)).map (fun r => r.data.point)

/-- A run of successive `tp_read` calls, one per `read()` outcome, each on the state left by
the one before. Gives the results in order; no result as soon as one call has none. -/
def tp_read_seq (cfg : Config) (s : TpState) : List ReadOutcome → Option (List TpReadResult)
  | [] => some []
  | r :: rs =>
    match tp_read cfg s r with
    | none => none
    | some res =>
      match tp_read_seq cfg res.st rs with
      | none => none
      | some out => some (res :: out)

end Tp

/-! ## `CWindowEvent` (cwindowevent.hxx) -/

namespace Twm4Nx

/-- Point `struct nxgl_point_s`. -/
structure nxgl_point_s where
  x : Int
  y : Int
  deriving DecidableEq, Repr

/-- The private members of `CWindowEvent` (lines 120-129). Pointers and the queue
descriptor are addresses or numbers; a null pointer is `0`. -/
structure CWindowEvent where
  m_twm4nx : Nat
  m_eventq : Int
  m_object : Nat
  m_isBackground : Bool
  m_dragHandler : Nat
  m_dragging : Bool
  m_dragPos : nxgl_point_s
  deriving DecidableEq, Repr

/-- Method `CWindowEvent::registerDragEventHandler` (lines 207-210). -/
def CWindowEvent.registerDragEventHandler (self : CWindowEvent) (dragHandler : Nat) :
    CWindowEvent :=
  { self with m_dragHandler := dragHandler }

end Twm4Nx

/-! ## Auxiliary lemmas -/

namespace Tp

/-- A value in the range of `lv_coord_t` is kept by the conversion. -/
theorem to_lv_coord_of_fits (n : Int) (h : fits_lv_coord n) : to_lv_coord n = n := by
  unfold fits_lv_coord at h
  unfold to_lv_coord
  omega

/-- Two points with the same coordinates are the same point. -/
theorem lv_point_t_eq_of_coords (a b : lv_point_t) (hx : a.x = b.x) (hy : a.y = b.y) :
    a = b := by
  cases a
  cases b
  simp only at hx hy
  subst hx hy
  rfl

/-- Converting coordinates that fit gives the point with these coordinates. -/
theorem to_lv_point_of_fits (a b : Int) (ha : fits_lv_coord a) (hb : fits_lv_coord b) :
    to_lv_point a b = ⟨a, b, ha, hb⟩ :=
  lv_point_t_eq_of_coords _ _ (to_lv_coord_of_fits a ha) (to_lv_coord_of_fits b hb)

/-- A value between `0` and a resolution is in the range of `lv_coord_t`. -/
theorem fits_of_le_res (n res : Int) (hres : fits_lv_coord res) (h0 : 0 ≤ n) (h1 : n ≤ res) :
    fits_lv_coord n := by
  unfold fits_lv_coord at hres ⊢
  omega

theorem c_abs_eq_abs (n : Int) : c_abs n = |n| := by
  unfold c_abs
  split
  · rename_i h
    rw [abs_of_neg h]
  · rename_i h
    rw [abs_of_nonneg (by omega)]

theorem c_abs_nonneg (n : Int) : 0 ≤ c_abs n := by
  unfold c_abs
  split <;> omega

theorem c_div_of_ne_zero (a b : Int) (h : b ≠ 0) : c_div a b = some (Int.tdiv a b) := by
  simp [c_div, h]

/-- Closed form of `tp_set_cal_values` on a state whose three flags are clear. -/
theorem tp_set_cal_values_of_clear (cfg : Config) (ul ur lr ll : lv_point_t) (s : TpState)
    (hxy : s.xy_inv = false) (hx : s.x_inv = false) (hy : s.y_inv = false) :
    tp_set_cal_values cfg ul ur lr ll s =
      { s with
        xy_inv := decide (c_abs (ul.x - ur.x) < Int.tdiv cfg.LV_HOR_RES 2)
        x_inv := decide (raw_h (decide (c_abs (ul.x - ur.x) < Int.tdiv cfg.LV_HOR_RES 2)) ur
                    < raw_h (decide (c_abs (ul.x - ur.x) < Int.tdiv cfg.LV_HOR_RES 2)) ul)
        y_inv := decide (raw_v (decide (c_abs (ul.x - ur.x) < Int.tdiv cfg.LV_HOR_RES 2)) ll
                    < raw_v (decide (c_abs (ul.x - ur.x) < Int.tdiv cfg.LV_HOR_RES 2)) ul)
        x_range := c_abs (raw_h (decide (c_abs (ul.x - ur.x) < Int.tdiv cfg.LV_HOR_RES 2)) ul
                    - raw_h (decide (c_abs (ul.x - ur.x) < Int.tdiv cfg.LV_HOR_RES 2)) ur)
        y_range := c_abs (raw_v (decide (c_abs (ul.x - ur.x) < Int.tdiv cfg.LV_HOR_RES 2)) ul
                    - raw_v (decide (c_abs (ul.x - ur.x) < Int.tdiv cfg.LV_HOR_RES 2)) ll)
        x_offset := min (raw_h (decide (c_abs (ul.x - ur.x) < Int.tdiv cfg.LV_HOR_RES 2)) ul)
                    (raw_h (decide (c_abs (ul.x - ur.x) < Int.tdiv cfg.LV_HOR_RES 2)) ur)
        y_offset := min (raw_v (decide (c_abs (ul.x - ur.x) < Int.tdiv cfg.LV_HOR_RES 2)) ul)
                    (raw_v (decide (c_abs (ul.x - ur.x) < Int.tdiv cfg.LV_HOR_RES 2)) ll)
        calibrated := true } := by
  obtain ⟨fd, cal, xr, yr, xo, yo, xy, xi, yi, lx, ly, ls⟩ := s
  simp only at hxy hx hy
  subst hxy hx hy
  by_cases hsw : c_abs (ul.x - ur.x) < Int.tdiv cfg.LV_HOR_RES 2
  · by_cases h1 : ur.y < ul.y <;> by_cases h2 : ll.x < ul.x <;>
      simp [tp_set_cal_values, raw_h, raw_v, hsw, h1, h2] <;> omega
  · by_cases h1 : ur.x < ul.x <;> by_cases h2 : ll.y < ul.y <;>
      simp [tp_set_cal_values, raw_h, raw_v, hsw, h1, h2] <;> omega

theorem tp_read_calibrated_eq (cfg : Config) (s : TpState) (p : touch_point_s)
    (hx : s.x_range ≠ 0) (hy : s.y_range ≠ 0) :
    tp_read_calibrated cfg s p =
      some (axis_map cfg.LV_HOR_RES s.x_offset s.x_range s.x_inv
              (raw_h s.xy_inv ⟨p.x, p.y, p.x_fits, p.y_fits⟩),
            axis_map cfg.LV_VER_RES s.y_offset s.y_range s.y_inv
              (raw_v s.xy_inv ⟨p.x, p.y, p.x_fits, p.y_fits⟩)) := by
  simp [tp_read_calibrated, c_div, hx, hy, axis_map, raw_h, raw_v]

/-- A full press sample read in a calibrated state with non-zero ranges. -/
theorem tp_read_press_calibrated (cfg : Config) (s : TpState) (p : touch_point_s)
    (hp : is_press cfg p.flags = true) (hc : s.calibrated = true)
    (hx : s.x_range ≠ 0) (hy : s.y_range ≠ 0) :
    tp_read cfg s (full_read cfg p) =
      some { ret := false
             data :=
              { point :=
                  to_lv_point
                    (axis_map cfg.LV_HOR_RES s.x_offset s.x_range s.x_inv
                      (raw_h s.xy_inv ⟨p.x, p.y, p.x_fits, p.y_fits⟩))
                    (axis_map cfg.LV_VER_RES s.y_offset s.y_range s.y_inv
                      (raw_v s.xy_inv ⟨p.x, p.y, p.x_fits, p.y_fits⟩))
                state := lv_indev_state_t.LV_INDEV_STATE_PR }
             st :=
              { s with
                last_x :=
                  axis_map cfg.LV_HOR_RES s.x_offset s.x_range s.x_inv
                    (raw_h s.xy_inv ⟨p.x, p.y, p.x_fits, p.y_fits⟩)
                last_y :=
                  axis_map cfg.LV_VER_RES s.y_offset s.y_range s.y_inv
                    (raw_v s.xy_inv ⟨p.x, p.y, p.x_fits, p.y_fits⟩)
                last_state := lv_indev_state_t.LV_INDEV_STATE_PR } } := by
  have hp2 : (flag_set p.flags cfg.TOUCH_DOWN || flag_set p.flags cfg.TOUCH_MOVE) = true := hp
  simp [tp_read, full_read, hp2, hc, tp_read_calibrated_eq cfg s p hx hy]

/-- The low end of a calibrated axis maps to `0` and the high end to the resolution. -/
theorem axis_map_ends (res a b : Int) (hne : c_abs (a - b) ≠ 0) :
    axis_map res (min a b) (c_abs (a - b)) (decide (b < a)) a = 0 ∧
    axis_map res (min a b) (c_abs (a - b)) (decide (b < a)) b = res := by
  unfold c_abs at hne ⊢
  by_cases h : b < a
  · have h1 : ¬ (a - b < 0) := by omega
    have h2 : min a b = b := min_eq_right (by omega)
    have h3 : a - b ≠ 0 := by omega
    simp [axis_map, h, h1, h2, Int.mul_tdiv_cancel_left _ h3]
  · have h0 : a ≠ b := by
      intro hab
      subst hab
      simp at hne
    have h1 : a - b < 0 := by omega
    have h2 : min a b = a := min_eq_left (by omega)
    have h3 : b - a ≠ 0 := by omega
    have h4 : -(a - b) = b - a := by ring
    simp [axis_map, h, h1, h2, h4, Int.mul_tdiv_cancel_left _ h3]

/-- A raw value between the two ends of a calibrated axis maps into `[0, res]`. -/
theorem axis_map_bounds (res a b raw : Int) (hres : 0 ≤ res) (hne : c_abs (a - b) ≠ 0)
    (hlo : min a b ≤ raw) (hhi : raw ≤ max a b) :
    0 ≤ axis_map res (min a b) (c_abs (a - b)) (decide (b < a)) raw ∧
    axis_map res (min a b) (c_abs (a - b)) (decide (b < a)) raw ≤ res := by
  have hr : c_abs (a - b) = max a b - min a b := by
    unfold c_abs
    rcases le_total a b with hab | hab
    · rw [max_eq_right hab, min_eq_left hab]
      split <;> omega
    · rw [max_eq_left hab, min_eq_right hab]
      split <;> omega
  have hpos : 0 < c_abs (a - b) := lt_of_le_of_ne (c_abs_nonneg _) (Ne.symm hne)
  have hd0 : 0 ≤ raw - min a b := by omega
  have hd1 : raw - min a b ≤ c_abs (a - b) := by omega
  have hq : Int.tdiv ((raw - min a b) * res) (c_abs (a - b))
      = (raw - min a b) * res / c_abs (a - b) :=
    Int.tdiv_eq_ediv (Int.mul_nonneg hd0 hres) (le_of_lt hpos)
  have hq0 : 0 ≤ (raw - min a b) * res / c_abs (a - b) :=
    Int.ediv_nonneg (Int.mul_nonneg hd0 hres) (le_of_lt hpos)
  have hq1 : (raw - min a b) * res / c_abs (a - b) ≤ res := by
    have hle : (raw - min a b) * res ≤ c_abs (a - b) * res :=
      Int.mul_le_mul_of_nonneg_right hd1 hres
    calc (raw - min a b) * res / c_abs (a - b)
        ≤ c_abs (a - b) * res / c_abs (a - b) := Int.ediv_le_ediv hpos hle
      _ = res := Int.mul_ediv_cancel_left res hne
  unfold axis_map
  rw [hq]
  split <;> constructor <;> omega

/-- The calibration fields stored by `tp_set_cal_values` on a state whose flags are clear,
in terms of the swap decision `sw`. -/
theorem tp_set_cal_values_fields (cfg : Config) (ul ur lr ll : lv_point_t) (s : TpState)
    (hxy : s.xy_inv = false) (hx : s.x_inv = false) (hy : s.y_inv = false) (sw : Bool)
    (hsw : sw = decide (c_abs (ul.x - ur.x) < Int.tdiv cfg.LV_HOR_RES 2)) :
    (tp_set_cal_values cfg ul ur lr ll s).xy_inv = sw ∧
    (tp_set_cal_values cfg ul ur lr ll s).x_inv = decide (raw_h sw ur < raw_h sw ul) ∧
    (tp_set_cal_values cfg ul ur lr ll s).y_inv = decide (raw_v sw ll < raw_v sw ul) ∧
    (tp_set_cal_values cfg ul ur lr ll s).x_range = c_abs (raw_h sw ul - raw_h sw ur) ∧
    (tp_set_cal_values cfg ul ur lr ll s).y_range = c_abs (raw_v sw ul - raw_v sw ll) ∧
    (tp_set_cal_values cfg ul ur lr ll s).x_offset = min (raw_h sw ul) (raw_h sw ur) ∧
    (tp_set_cal_values cfg ul ur lr ll s).y_offset = min (raw_v sw ul) (raw_v sw ll) ∧
    (tp_set_cal_values cfg ul ur lr ll s).calibrated = true := by
  subst hsw
  rw [tp_set_cal_values_of_clear cfg ul ur lr ll s hxy hx hy]
  exact ⟨rfl, rfl, rfl, rfl, rfl, rfl, rfl, rfl⟩

/-! ## Calibration: corners, bounds, detection -/

/-- C1: after `tp_set_cal_values` on a state whose flags `xy_inv`, `x_inv`, `y_inv` are all
false (as in the initial state), with `LV_HOR_RES >= 2`, `LV_VER_RES >= 1` and both resulting
ranges non-zero, a following `tp_read` of a full sample with `TOUCH_DOWN` set reports the point
`(0, 0)` when the raw point is `ul`, reports `x = LV_HOR_RES` when the raw point is `ur`, and
reports `y = LV_VER_RES` when the raw point is `ll`; this holds for every orientation of the
corners (swapped or not, either axis inverted or not). -/
theorem calibration_maps_corners (cfg : Config) (ul ur lr ll : lv_point_t) (s : TpState)
    (f : Nat)
    (hxy : s.xy_inv = false) (hxi : s.x_inv = false) (hyi : s.y_inv = false)
    (_hH : 2 ≤ cfg.LV_HOR_RES) (_hV : 1 ≤ cfg.LV_VER_RES)
    (hxr : (tp_set_cal_values cfg ul ur lr ll s).x_range ≠ 0)
    (hyr : (tp_set_cal_values cfg ul ur lr ll s).y_range ≠ 0)
    (hdown : flag_set f cfg.TOUCH_DOWN = true) :
    (∃ r, tp_read cfg (tp_set_cal_values cfg ul ur lr ll s)
              (full_read cfg ⟨ul.x, ul.y, f, ul.x_fits, ul.y_fits⟩)
            = some r ∧ r.data.point = ⟨0, 0, by decide, by decide⟩) ∧
    (∃ r, tp_read cfg (tp_set_cal_values cfg ul ur lr ll s)
              (full_read cfg ⟨ur.x, ur.y, f, ur.x_fits, ur.y_fits⟩)
            = some r ∧ r.data.point.x = cfg.LV_HOR_RES) ∧
    (∃ r, tp_read cfg (tp_set_cal_values cfg ul ur lr ll s)
              (full_read cfg ⟨ll.x, ll.y, f, ll.x_fits, ll.y_fits⟩)
            = some r ∧ r.data.point.y = cfg.LV_VER_RES) := by
  obtain ⟨e1, e2, e3, e4, e5, e6, e7, e8⟩ :=
    tp_set_cal_values_fields cfg ul ur lr ll s hxy hxi hyi _ rfl
  have hpress : ∀ (x y : Int) (hx : fits_lv_coord x) (hy : fits_lv_coord y),
      is_press cfg (touch_point_s.mk x y f hx hy).flags = true := by
    intro x y hx hy
    simp [is_press, hdown]
  have hX := axis_map_ends cfg.LV_HOR_RES _ _ (e4 ▸ hxr)
  have hY := axis_map_ends cfg.LV_VER_RES _ _ (e5 ▸ hyr)
  refine ⟨⟨_, tp_read_press_calibrated cfg _ _ (hpress _ _ _ _) e8 hxr hyr, ?_⟩,
          ⟨_, tp_read_press_calibrated cfg _ _ (hpress _ _ _ _) e8 hxr hyr, ?_⟩,
          ⟨_, tp_read_press_calibrated cfg _ _ (hpress _ _ _ _) e8 hxr hyr, ?_⟩⟩
  · simp only [e1, e2, e3, e4, e5, e6, e7]
    rw [hX.1, hY.1]
    rfl
  · simp only [e1, e2, e4, e6]
    show to_lv_coord _ = _
    rw [hX.2]
    exact to_lv_coord_of_fits _ cfg.hor_fits
  · simp only [e1, e3, e5, e7]
    show to_lv_coord _ = _
    rw [hY.2]
    exact to_lv_coord_of_fits _ cfg.ver_fits

/-- Witness of C1: a panel whose axes are swapped and both inverted. -/
theorem calibration_maps_corners_witness :
    (∃ r, tp_read demo_cfg
            (tp_set_cal_values demo_cfg (.mk 3900 3800) (.mk 3910 200) (.mk 100 210) (.mk 100 3800)
              TpState.init)
            (full_read demo_cfg (.mk 3900 3800 1)) = some r ∧ r.data.point = (.mk 0 0)) ∧
    (∃ r, tp_read demo_cfg
            (tp_set_cal_values demo_cfg (.mk 3900 3800) (.mk 3910 200) (.mk 100 210) (.mk 100 3800)
              TpState.init)
            (full_read demo_cfg (.mk 3910 200 1)) = some r ∧
          r.data.point.x = demo_cfg.LV_HOR_RES) ∧
    (∃ r, tp_read demo_cfg
            (tp_set_cal_values demo_cfg (.mk 3900 3800) (.mk 3910 200) (.mk 100 210) (.mk 100 3800)
              TpState.init)
            (full_read demo_cfg (.mk 100 3800 1)) = some r ∧
          r.data.point.y = demo_cfg.LV_VER_RES) :=
  calibration_maps_corners demo_cfg (.mk 3900 3800) (.mk 3910 200) (.mk 100 210) (.mk 100 3800)
    TpState.init 1 rfl rfl rfl (by decide) (by decide) (by decide) (by decide) (by decide)

/-- The eight orientations of a panel with raw extent `100..3900` by `200..3800`, each
evaluated: `ul` is reported as `(0, 0)`, `ur` at `x = 480`, `ll` at `y = 272`. -/
theorem orientation_cases_evaluated :
    -- not swapped
    (demo_report (.mk 100 200) (.mk 3900 200) (.mk 3900 3800) (.mk 100 3800) (.mk 100 200)
       = some (.mk 0 0) ∧
     demo_report (.mk 100 200) (.mk 3900 200) (.mk 3900 3800) (.mk 100 3800) (.mk 3900 200)
       = some (.mk 480 0) ∧
     demo_report (.mk 100 200) (.mk 3900 200) (.mk 3900 3800) (.mk 100 3800) (.mk 100 3800)
       = some (.mk 0 272)) ∧
    (demo_report (.mk 3900 200) (.mk 100 200) (.mk 100 3800) (.mk 3900 3800) (.mk 3900 200)
       = some (.mk 0 0) ∧
     demo_report (.mk 3900 200) (.mk 100 200) (.mk 100 3800) (.mk 3900 3800) (.mk 100 200)
       = some (.mk 480 0) ∧
     demo_report (.mk 3900 200) (.mk 100 200) (.mk 100 3800) (.mk 3900 3800) (.mk 3900 3800)
       = some (.mk 0 272)) ∧
    (demo_report (.mk 100 3800) (.mk 3900 3800) (.mk 3900 200) (.mk 100 200) (.mk 100 3800)
       = some (.mk 0 0) ∧
     demo_report (.mk 100 3800) (.mk 3900 3800) (.mk 3900 200) (.mk 100 200) (.mk 3900 3800)
       = some (.mk 480 0) ∧
     demo_report (.mk 100 3800) (.mk 3900 3800) (.mk 3900 200) (.mk 100 200) (.mk 100 200)
       = some (.mk 0 272)) ∧
    (demo_report (.mk 3900 3800) (.mk 100 3800) (.mk 100 200) (.mk 3900 200) (.mk 3900 3800)
       = some (.mk 0 0) ∧
     demo_report (.mk 3900 3800) (.mk 100 3800) (.mk 100 200) (.mk 3900 200) (.mk 100 3800)
       = some (.mk 480 0) ∧
     demo_report (.mk 3900 3800) (.mk 100 3800) (.mk 100 200) (.mk 3900 200) (.mk 3900 200)
       = some (.mk 0 272)) ∧
    -- swapped: the raw `y` axis runs horizontally
    (demo_report (.mk 100 200) (.mk 100 3800) (.mk 3900 3800) (.mk 3900 200) (.mk 100 200)
       = some (.mk 0 0) ∧
     demo_report (.mk 100 200) (.mk 100 3800) (.mk 3900 3800) (.mk 3900 200) (.mk 100 3800)
       = some (.mk 480 0) ∧
     demo_report (.mk 100 200) (.mk 100 3800) (.mk 3900 3800) (.mk 3900 200) (.mk 3900 200)
       = some (.mk 0 272)) ∧
    (demo_report (.mk 100 3800) (.mk 100 200) (.mk 3900 200) (.mk 3900 3800) (.mk 100 3800)
       = some (.mk 0 0) ∧
     demo_report (.mk 100 3800) (.mk 100 200) (.mk 3900 200) (.mk 3900 3800) (.mk 100 200)
       = some (.mk 480 0) ∧
     demo_report (.mk 100 3800) (.mk 100 200) (.mk 3900 200) (.mk 3900 3800) (.mk 3900 3800)
       = some (.mk 0 272)) ∧
    (demo_report (.mk 3900 200) (.mk 3900 3800) (.mk 100 3800) (.mk 100 200) (.mk 3900 200)
       = some (.mk 0 0) ∧
     demo_report (.mk 3900 200) (.mk 3900 3800) (.mk 100 3800) (.mk 100 200) (.mk 3900 3800)
       = some (.mk 480 0) ∧
     demo_report (.mk 3900 200) (.mk 3900 3800) (.mk 100 3800) (.mk 100 200) (.mk 100 200)
       = some (.mk 0 272)) ∧
    (demo_report (.mk 3900 3800) (.mk 3900 200) (.mk 100 200) (.mk 100 3800) (.mk 3900 3800)
       = some (.mk 0 0) ∧
     demo_report (.mk 3900 3800) (.mk 3900 200) (.mk 100 200) (.mk 100 3800) (.mk 3900 200)
       = some (.mk 480 0) ∧
     demo_report (.mk 3900 3800) (.mk 3900 200) (.mk 100 200) (.mk 100 3800) (.mk 100 3800)
       = some (.mk 0 272)) := by
  decide

/-- C2: after `tp_set_cal_values` on a state whose three flags are false, with
`LV_HOR_RES >= 2`, `LV_VER_RES >= 1` and both resulting ranges non-zero, every full
`TOUCH_DOWN` or `TOUCH_MOVE` sample whose raw coordinate on the horizontal raw axis lies
between the `ul` and `ur` values (inclusive) and whose raw coordinate on the vertical raw axis
lies between the `ul` and `ll` values (inclusive) is reported by `tp_read` as a point with
`0 <= x <= LV_HOR_RES` and `0 <= y <= LV_VER_RES`. -/
theorem calibrated_point_in_display (cfg : Config) (ul ur lr ll : lv_point_t) (s : TpState)
    (p : touch_point_s)
    (hxy : s.xy_inv = false) (hxi : s.x_inv = false) (hyi : s.y_inv = false)
    (hH : 2 ≤ cfg.LV_HOR_RES) (hV : 1 ≤ cfg.LV_VER_RES)
    (hxr : (tp_set_cal_values cfg ul ur lr ll s).x_range ≠ 0)
    (hyr : (tp_set_cal_values cfg ul ur lr ll s).y_range ≠ 0)
    (hpress : is_press cfg p.flags = true)
    (hh_lo : min (raw_h (tp_set_cal_values cfg ul ur lr ll s).xy_inv ul)
                 (raw_h (tp_set_cal_values cfg ul ur lr ll s).xy_inv ur)
              ≤ raw_h (tp_set_cal_values cfg ul ur lr ll s).xy_inv ⟨p.x, p.y, p.x_fits, p.y_fits⟩)
    (hh_hi : raw_h (tp_set_cal_values cfg ul ur lr ll s).xy_inv ⟨p.x, p.y, p.x_fits, p.y_fits⟩
              ≤ max (raw_h (tp_set_cal_values cfg ul ur lr ll s).xy_inv ul)
                    (raw_h (tp_set_cal_values cfg ul ur lr ll s).xy_inv ur))
    (hv_lo : min (raw_v (tp_set_cal_values cfg ul ur lr ll s).xy_inv ul)
                 (raw_v (tp_set_cal_values cfg ul ur lr ll s).xy_inv ll)
              ≤ raw_v (tp_set_cal_values cfg ul ur lr ll s).xy_inv ⟨p.x, p.y, p.x_fits, p.y_fits⟩)
    (hv_hi : raw_v (tp_set_cal_values cfg ul ur lr ll s).xy_inv ⟨p.x, p.y, p.x_fits, p.y_fits⟩
              ≤ max (raw_v (tp_set_cal_values cfg ul ur lr ll s).xy_inv ul)
                    (raw_v (tp_set_cal_values cfg ul ur lr ll s).xy_inv ll)) :
    ∃ r, tp_read cfg (tp_set_cal_values cfg ul ur lr ll s) (full_read cfg p) = some r ∧
      0 ≤ r.data.point.x ∧ r.data.point.x ≤ cfg.LV_HOR_RES ∧
      0 ≤ r.data.point.y ∧ r.data.point.y ≤ cfg.LV_VER_RES := by
  obtain ⟨e1, e2, e3, e4, e5, e6, e7, e8⟩ :=
    tp_set_cal_values_fields cfg ul ur lr ll s hxy hxi hyi _ rfl
  rw [e1] at hh_lo hh_hi hv_lo hv_hi
  have hX := axis_map_bounds cfg.LV_HOR_RES _ _ _ (by omega) (e4 ▸ hxr) hh_lo hh_hi
  have hY := axis_map_bounds cfg.LV_VER_RES _ _ _ (by omega) (e5 ▸ hyr) hv_lo hv_hi
  have hx := to_lv_coord_of_fits _ (fits_of_le_res _ _ cfg.hor_fits hX.1 hX.2)
  have hy := to_lv_coord_of_fits _ (fits_of_le_res _ _ cfg.ver_fits hY.1 hY.2)
  refine ⟨_, tp_read_press_calibrated cfg _ _ hpress e8 hxr hyr, ?_⟩
  simp only [e1, e2, e3, e4, e5, e6, e7]
  show 0 ≤ to_lv_coord _ ∧ to_lv_coord _ ≤ _ ∧ 0 ≤ to_lv_coord _ ∧ to_lv_coord _ ≤ _
  rw [hx, hy]
  exact ⟨hX.1, hX.2, hY.1, hY.2⟩

/-- Witness of C2: a `TOUCH_MOVE` sample inside an unswapped panel with inverted `x`. -/
theorem calibrated_point_in_display_witness :
    ∃ r, tp_read demo_cfg
          (tp_set_cal_values demo_cfg (.mk 3900 200) (.mk 100 210) (.mk 100 3800) (.mk 3890 3800)
            TpState.init)
          (full_read demo_cfg (.mk 1234 777 2)) = some r ∧
      0 ≤ r.data.point.x ∧ r.data.point.x ≤ demo_cfg.LV_HOR_RES ∧
      0 ≤ r.data.point.y ∧ r.data.point.y ≤ demo_cfg.LV_VER_RES :=
  calibrated_point_in_display demo_cfg (.mk 3900 200) (.mk 100 210) (.mk 100 3800) (.mk 3890 3800)
    TpState.init (.mk 1234 777 2) rfl rfl rfl (by decide) (by decide) (by decide) (by decide)
    (by decide) (by decide) (by decide) (by decide) (by decide)

/-- C3: called on a state whose flags are all false (the initial state),
`tp_set_cal_values` stores `xy_inv = true` iff `|ul.x - ur.x| < LV_HOR_RES / 2` (the
truncating division of C, which here decides the same as the flooring one), and, with `h`
the raw axis used horizontally and `v` the other one: `x_inv` iff `ur.h < ul.h`, `y_inv`
iff `ll.v < ul.v`, `x_range = |ul.h - ur.h|`, `y_range = |ul.v - ll.v|`,
`x_offset = min(ul.h, ur.h)`, `y_offset = min(ul.v, ll.v)` and `calibrated = true`. -/
theorem set_cal_values_detection (cfg : Config) (ul ur lr ll : lv_point_t) (s : TpState)
    (hxy : s.xy_inv = false) (hxi : s.x_inv = false) (hyi : s.y_inv = false) :
    ((tp_set_cal_values cfg ul ur lr ll s).xy_inv = true
        ↔ |ul.x - ur.x| < Int.tdiv cfg.LV_HOR_RES 2) ∧
    ((tp_set_cal_values cfg ul ur lr ll s).xy_inv = true
        ↔ |ul.x - ur.x| < cfg.LV_HOR_RES / 2) ∧
    ((tp_set_cal_values cfg ul ur lr ll s).x_inv = true
        ↔ raw_h (tp_set_cal_values cfg ul ur lr ll s).xy_inv ur
            < raw_h (tp_set_cal_values cfg ul ur lr ll s).xy_inv ul) ∧
    ((tp_set_cal_values cfg ul ur lr ll s).y_inv = true
        ↔ raw_v (tp_set_cal_values cfg ul ur lr ll s).xy_inv ll
            < raw_v (tp_set_cal_values cfg ul ur lr ll s).xy_inv ul) ∧
    (tp_set_cal_values cfg ul ur lr ll s).x_range
        = |raw_h (tp_set_cal_values cfg ul ur lr ll s).xy_inv ul
            - raw_h (tp_set_cal_values cfg ul ur lr ll s).xy_inv ur| ∧
    (tp_set_cal_values cfg ul ur lr ll s).y_range
        = |raw_v (tp_set_cal_values cfg ul ur lr ll s).xy_inv ul
            - raw_v (tp_set_cal_values cfg ul ur lr ll s).xy_inv ll| ∧
    (tp_set_cal_values cfg ul ur lr ll s).x_offset
        = min (raw_h (tp_set_cal_values cfg ul ur lr ll s).xy_inv ul)
              (raw_h (tp_set_cal_values cfg ul ur lr ll s).xy_inv ur) ∧
    (tp_set_cal_values cfg ul ur lr ll s).y_offset
        = min (raw_v (tp_set_cal_values cfg ul ur lr ll s).xy_inv ul)
              (raw_v (tp_set_cal_values cfg ul ur lr ll s).xy_inv ll) ∧
    (tp_set_cal_values cfg ul ur lr ll s).calibrated = true := by
  obtain ⟨e1, e2, e3, e4, e5, e6, e7, e8⟩ :=
    tp_set_cal_values_fields cfg ul ur lr ll s hxy hxi hyi _ rfl
  have hdiv : |ul.x - ur.x| < Int.tdiv cfg.LV_HOR_RES 2 ↔ |ul.x - ur.x| < cfg.LV_HOR_RES / 2 := by
    have habs : 0 ≤ |ul.x - ur.x| := abs_nonneg _
    rcases le_or_lt 0 cfg.LV_HOR_RES with hn | hn
    · rw [Int.tdiv_eq_ediv hn (by decide)]
    · have h1 : Int.tdiv cfg.LV_HOR_RES 2 ≤ 0 := by
        have := Int.tdiv_nonneg (a := -cfg.LV_HOR_RES) (b := 2) (by omega) (by decide)
        rw [Int.neg_tdiv] at this
        omega
      have h2 : cfg.LV_HOR_RES / 2 ≤ 0 := by omega
      constructor <;> intro h <;> omega
  have hsw : (tp_set_cal_values cfg ul ur lr ll s).xy_inv = true
      ↔ |ul.x - ur.x| < Int.tdiv cfg.LV_HOR_RES 2 := by
    rw [e1, ← c_abs_eq_abs]
    simp
  refine ⟨hsw, hsw.trans hdiv, ?_, ?_, ?_, ?_, ?_, ?_, e8⟩
  · rw [e2, e1]; simp
  · rw [e3, e1]; simp
  · rw [e4, e1, c_abs_eq_abs]
  · rw [e5, e1, c_abs_eq_abs]
  · rw [e6, e1]
  · rw [e7, e1]

/-- Witness of C3: the program's initial state and a swapped, doubly inverted panel. -/
theorem set_cal_values_detection_witness :
    (tp_set_cal_values demo_cfg (.mk 3900 3800) (.mk 3910 200) (.mk 100 210) (.mk 100 3800)
        TpState.init).xy_inv = true ∧
    (tp_set_cal_values demo_cfg (.mk 3900 3800) (.mk 3910 200) (.mk 100 210) (.mk 100 3800)
        TpState.init).x_range = 3600 ∧
    (tp_set_cal_values demo_cfg (.mk 3900 3800) (.mk 3910 200) (.mk 100 210) (.mk 100 3800)
        TpState.init).y_offset = 100 :=
  have h := set_cal_values_detection demo_cfg (.mk 3900 3800) (.mk 3910 200) (.mk 100 210)
    (.mk 100 3800)
    TpState.init rfl rfl rfl
  ⟨h.1.mpr (by decide), h.2.2.2.2.1.trans (by decide), h.2.2.2.2.2.2.2.1.trans (by decide)⟩

/-! ## Repeated calibration -/

/-- The calibration data left by `tp_set_cal_values` depends on the prior state only through
its three flags. -/
theorem tp_set_cal_values_cal_of_flags_eq (cfg : Config) (ul ur lr ll : lv_point_t)
    (s t : TpState) (hxy : s.xy_inv = t.xy_inv) (hxi : s.x_inv = t.x_inv)
    (hyi : s.y_inv = t.y_inv) :
    (tp_set_cal_values cfg ul ur lr ll s).cal = (tp_set_cal_values cfg ul ur lr ll t).cal := by
  obtain ⟨fd, cal, xr, yr, xo, yo, xy, xi, yi, lx, ly, ls⟩ := s
  obtain ⟨fd2, cal2, xr2, yr2, xo2, yo2, xy2, xi2, yi2, lx2, ly2, ls2⟩ := t
  simp only at hxy hxi hyi
  subst hxy hxi hyi
  unfold tp_set_cal_values TpState.cal
  by_cases hsw : c_abs (ul.x - ur.x) < Int.tdiv cfg.LV_HOR_RES 2 <;>
    by_cases h1 : ur.y < ul.y <;> by_cases h2 : ll.x < ul.x <;>
    by_cases h3 : ur.x < ul.x <;> by_cases h4 : ll.y < ul.y <;>
    cases xy <;> simp [hsw, h1, h2, h3, h4]

/-- C4 (evaluation at the failing input): calibrating with the corners `(100, 200)`,
`(3900, 210)`, `(3900, 3800)`, `(110, 3800)` in the initial state and in the state left by an
earlier calibration of a swapped, inverted panel does not leave the same calibration data:
the flags of the earlier calibration stay set, and the ranges and offsets are taken from the
wrong axes. -/
theorem set_cal_values_keeps_earlier_flags :
    (tp_set_cal_values demo_cfg (.mk 100 200) (.mk 3900 210) (.mk 3900 3800) (.mk 110 3800)
        TpState.init).cal
      = { x_range := 3800, y_range := 3600, x_offset := 100, y_offset := 200,
          xy_inv := false, x_inv := false, y_inv := false, calibrated := true } ∧
    (tp_set_cal_values demo_cfg (.mk 100 200) (.mk 3900 210) (.mk 3900 3800) (.mk 110 3800)
        (tp_set_cal_values demo_cfg (.mk 3900 3800) (.mk 3910 200) (.mk 100 210) (.mk 100 3800)
          TpState.init)).cal
      = { x_range := 10, y_range := 10, x_offset := 210, y_offset := 110,
          xy_inv := true, x_inv := true, y_inv := true, calibrated := true } := by
  decide

/-! ## `tp_read`: press, release, failed read, return value -/

/-- Every result that `tp_read` produces carries the return value `false`. -/
theorem tp_read_ret_of_some (cfg : Config) (s : TpState) (r : ReadOutcome) (res : TpReadResult)
    (h : tp_read cfg s r = some res) : res.ret = false := by
  unfold tp_read at h
  split at h
  · cases h
    rfl
  · rw [Option.map_eq_some'] at h
    obtain ⟨t, _, ht⟩ := h
    rw [← ht]

/-- The only way for `tp_read` to have no result: a full press sample in a calibrated state
one of whose ranges is zero. -/
theorem tp_read_eq_none_iff (cfg : Config) (s : TpState) (r : ReadOutcome) :
    tp_read cfg s r = none ↔
      (r.nbytes = (cfg.sample_size : Int) ∧ is_press cfg r.sample.point0.flags = true ∧
        s.calibrated = true ∧ (s.x_range = 0 ∨ s.y_range = 0)) := by
  unfold tp_read is_press
  by_cases hn : r.nbytes < 0 ∨ r.nbytes ≠ (cfg.sample_size : Int)
  · rw [if_pos hn]
    constructor
    · intro h
      cases h
    · rintro ⟨h1, -⟩
      rcases hn with hn | hn
      · omega
      · exact absurd h1 hn
  · rw [if_neg hn]
    have hfull : r.nbytes = (cfg.sample_size : Int) := by
      by_contra hc
      exact hn (Or.inr hc)
    by_cases hp : (flag_set r.sample.point0.flags cfg.TOUCH_DOWN
        || flag_set r.sample.point0.flags cfg.TOUCH_MOVE) = true
    · by_cases hc : s.calibrated = true
      · by_cases hx : s.x_range = 0
        · simp [hfull, hp, hc, hx, tp_read_calibrated, c_div]
        · by_cases hy : s.y_range = 0
          · simp [hfull, hp, hc, hx, hy, tp_read_calibrated, c_div]
          · simp [hfull, hp, hc, hx, hy, tp_read_calibrated_eq cfg s _ hx hy]
      · simp [hfull, hp, hc]
    · simp only [hp]
      simp [hfull]
      split <;> simp

/-- C5: with `calibrated = false`, when `read()` returns a full sample whose first point has
`TOUCH_DOWN` or `TOUCH_MOVE` set (whatever other flags are set), `tp_read` stores in `data`
the point `(sample.x, sample.y)` unchanged and the state `LV_INDEV_STATE_PR`, and remembers
that point and state (nothing else in the driver state changes). -/
theorem uncalibrated_press_passes_raw (cfg : Config) (s : TpState) (r : ReadOutcome)
    (hfull : r.nbytes = (cfg.sample_size : Int))
    (hpress : is_press cfg r.sample.point0.flags = true)
    (hcal : s.calibrated = false) :
    tp_read cfg s r =
      some { ret := false
             data := { point := ⟨r.sample.point0.x, r.sample.point0.y,
                                 r.sample.point0.x_fits, r.sample.point0.y_fits⟩
                       state := lv_indev_state_t.LV_INDEV_STATE_PR }
             st := { s with
                     last_x := r.sample.point0.x
                     last_y := r.sample.point0.y
                     last_state := lv_indev_state_t.LV_INDEV_STATE_PR } } := by
  have hp2 : (flag_set r.sample.point0.flags cfg.TOUCH_DOWN
      || flag_set r.sample.point0.flags cfg.TOUCH_MOVE) = true := hpress
  simp [tp_read, hfull, hp2, hcal,
    to_lv_point_of_fits _ _ r.sample.point0.x_fits r.sample.point0.y_fits]

/-- Witness of C5: a sample with `TOUCH_MOVE` and `TOUCH_UP` both set, in the initial state. -/
theorem uncalibrated_press_passes_raw_witness :
    tp_read demo_cfg TpState.init ⟨16, ⟨.mk 1234 777 6⟩⟩ =
      some { ret := false
             data := { point := (.mk 1234 777), state := lv_indev_state_t.LV_INDEV_STATE_PR }
             st := { TpState.init with
                     last_x := 1234
                     last_y := 777
                     last_state := lv_indev_state_t.LV_INDEV_STATE_PR } } :=
  uncalibrated_press_passes_raw demo_cfg TpState.init ⟨16, ⟨.mk 1234 777 6⟩⟩
    (by decide) (by decide) (by decide)

/-- C6 (counterexample): the claim as stated fails after a calibrated press that lands
outside the display. With the corners `(0, 0)`, `(240, 0)`, `(240, 1000)`, `(0, 1000)` a
press at raw `(20000, 500)` is remembered as `last_x = 20000 * 480 / 240 = 40000`; the
release that follows leaves `last_x = 40000` but stores `x = 40000 - 65536 = -25536` in
`data`, not the remembered value. -/
theorem release_point_differs_from_remembered :
    ∃ pressed released,
      tp_read demo_cfg
          (tp_set_cal_values demo_cfg (.mk 0 0) (.mk 240 0) (.mk 240 1000) (.mk 0 1000)
            TpState.init)
          ⟨16, ⟨.mk 20000 500 1⟩⟩ = some pressed ∧
      tp_read demo_cfg pressed.st ⟨16, ⟨.mk 0 0 4⟩⟩ = some released ∧
      pressed.st.last_x = 40000 ∧
      released.st.last_x = 40000 ∧
      released.data.state = lv_indev_state_t.LV_INDEV_STATE_REL ∧
      released.data.point.x = -25536 ∧
      released.data.point.x ≠ pressed.st.last_x :=
  ⟨_, _, rfl, rfl, by decide, by decide, by decide, by decide, by decide⟩

/-- C6 (amended): in every driver state, calibrated or not, when `read()` returns a full
sample whose first point has `TOUCH_UP` set and neither `TOUCH_DOWN` nor `TOUCH_MOVE`,
`tp_read` stores in `data` the state `LV_INDEV_STATE_REL` together with the remembered point
`(last_x, last_y)` converted to `lv_coord_t`: a coordinate that fits the 16-bit range is
stored as it is remembered, one that does not is stored wrapped modulo `2^16`. The raw
coordinates of the sample are not used, and only `last_state` changes in the driver state. -/
theorem release_reports_converted_point (cfg : Config) (s : TpState) (r : ReadOutcome)
    (hfull : r.nbytes = (cfg.sample_size : Int))
    (hup : flag_set r.sample.point0.flags cfg.TOUCH_UP = true)
    (hdown : flag_set r.sample.point0.flags cfg.TOUCH_DOWN = false)
    (hmove : flag_set r.sample.point0.flags cfg.TOUCH_MOVE = false) :
    tp_read cfg s r =
      some { ret := false
             data := { point := to_lv_point s.last_x s.last_y
                       state := lv_indev_state_t.LV_INDEV_STATE_REL }
             st := { s with last_state := lv_indev_state_t.LV_INDEV_STATE_REL } } ∧
    (to_lv_point s.last_x s.last_y).x = (s.last_x + 32768) % 65536 - 32768 ∧
    (to_lv_point s.last_x s.last_y).y = (s.last_y + 32768) % 65536 - 32768 ∧
    (fits_lv_coord s.last_x → (to_lv_point s.last_x s.last_y).x = s.last_x) ∧
    (fits_lv_coord s.last_y → (to_lv_point s.last_x s.last_y).y = s.last_y) := by
  refine ⟨?_, rfl, rfl, to_lv_coord_of_fits _, to_lv_coord_of_fits _⟩
  simp [tp_read, hfull, hup, hdown, hmove]

/-- Witness of C6 (amended): a release at raw `(55, 66)` after a press remembered at
`(10, 20)`, in a calibrated state; the remembered point fits and is reported as it is. -/
theorem release_reports_converted_point_witness :
    tp_read demo_cfg
        { (tp_set_cal_values demo_cfg (.mk 100 200) (.mk 3900 210) (.mk 3900 3800) (.mk 110 3800)
            TpState.init) with
          last_x := 10, last_y := 20, last_state := lv_indev_state_t.LV_INDEV_STATE_PR }
        ⟨16, ⟨.mk 55 66 4⟩⟩ =
      some { ret := false
             data := { point := (.mk 10 20), state := lv_indev_state_t.LV_INDEV_STATE_REL }
             st := { (tp_set_cal_values demo_cfg (.mk 100 200) (.mk 3900 210) (.mk 3900 3800)
                      (.mk 110 3800) TpState.init) with
                     last_x := 10, last_y := 20
                     last_state := lv_indev_state_t.LV_INDEV_STATE_REL } } :=
  (release_reports_converted_point demo_cfg _ ⟨16, ⟨.mk 55 66 4⟩⟩
    (by decide) (by decide) (by decide) (by decide)).1

/-- C7 (counterexample): the claim as stated fails after a calibrated press that lands
outside the display. With the corners `(0, 0)`, `(240, 0)`, `(240, 1000)`, `(0, 1000)` a
press at raw `(32767, 500)` is remembered as `last_x = 32767 * 480 / 240 = 65534`; a failed
`read()` (return value `-1`) then leaves the state unchanged but stores
`x = 65534 - 65536 = -2` in `data`, not the remembered value. -/
theorem failed_read_point_differs_from_remembered :
    ∃ pressed failed,
      tp_read demo_cfg
          (tp_set_cal_values demo_cfg (.mk 0 0) (.mk 240 0) (.mk 240 1000) (.mk 0 1000)
            TpState.init)
          ⟨16, ⟨.mk 32767 500 1⟩⟩ = some pressed ∧
      tp_read demo_cfg pressed.st ⟨-1, ⟨.mk 0 0 0⟩⟩ = some failed ∧
      pressed.st.last_x = 65534 ∧
      failed.st = pressed.st ∧
      failed.data.point.x = -2 ∧
      failed.data.point.x ≠ pressed.st.last_x :=
  ⟨_, _, rfl, rfl, by decide, by decide, by decide, by decide⟩

/-- C7 (amended): in every driver state, when `read()` returns a negative value or a byte
count other than `sizeof(struct touch_sample_s)`, `tp_read` stores in `data` the remembered
state and the remembered point `(last_x, last_y)` converted to `lv_coord_t` (a coordinate
that fits the 16-bit range is stored as it is remembered, one that does not is stored wrapped
modulo `2^16`), and leaves the whole driver state (remembered point, remembered state,
calibration) unchanged; in the initial state the reported point is `(0, 0)` and the reported
state `LV_INDEV_STATE_REL`. -/
theorem failed_read_reports_converted_point (cfg : Config) (s : TpState) (r : ReadOutcome)
    (hfail : r.nbytes < 0 ∨ r.nbytes ≠ (cfg.sample_size : Int)) :
    tp_read cfg s r =
      some { ret := false
             data := { point := to_lv_point s.last_x s.last_y, state := s.last_state }
             st := s } ∧
    (to_lv_point s.last_x s.last_y).x = (s.last_x + 32768) % 65536 - 32768 ∧
    (to_lv_point s.last_x s.last_y).y = (s.last_y + 32768) % 65536 - 32768 ∧
    (fits_lv_coord s.last_x → (to_lv_point s.last_x s.last_y).x = s.last_x) ∧
    (fits_lv_coord s.last_y → (to_lv_point s.last_x s.last_y).y = s.last_y) ∧
    tp_read cfg TpState.init r =
      some { ret := false
             data := { point := (.mk 0 0), state := lv_indev_state_t.LV_INDEV_STATE_REL }
             st := TpState.init } := by
  refine ⟨?_, rfl, rfl, to_lv_coord_of_fits _, to_lv_coord_of_fits _, ?_⟩
  · simp only [tp_read, if_pos hfail]
  · simp only [tp_read, if_pos hfail]
    rfl

/-- Witness of C7 (amended): a short read of 5 bytes after a press remembered at
`(10, 20)`; the remembered point fits and is reported as it is. -/
theorem failed_read_reports_converted_point_witness :
    tp_read demo_cfg
        { TpState.init with
          last_x := 10, last_y := 20, last_state := lv_indev_state_t.LV_INDEV_STATE_PR }
        ⟨5, ⟨.mk 55 66 1⟩⟩ =
      some { ret := false
             data := { point := (.mk 10 20), state := lv_indev_state_t.LV_INDEV_STATE_PR }
             st := { TpState.init with
                     last_x := 10, last_y := 20
                     last_state := lv_indev_state_t.LV_INDEV_STATE_PR } } :=
  (failed_read_reports_converted_point demo_cfg
    { TpState.init with
      last_x := 10, last_y := 20, last_state := lv_indev_state_t.LV_INDEV_STATE_PR }
    ⟨5, ⟨.mk 55 66 1⟩⟩ (by decide)).1

/-- C8 (evaluation at the failing input): after a calibration whose four corners are the
same raw point `(2000, 2000)` the driver is calibrated with `x_range = 0` and `y_range = 0`,
and `tp_read` of a full `TOUCH_DOWN` sample reaches the division by `x_range` at line 176:
it has no defined result, so it does not return `false`. -/
theorem tp_read_divides_by_zero_range :
    (tp_set_cal_values demo_cfg (.mk 2000 2000) (.mk 2000 2000) (.mk 2000 2000) (.mk 2000 2000)
        TpState.init).cal
      = { x_range := 0, y_range := 0, x_offset := 2000, y_offset := 2000,
          xy_inv := true, x_inv := false, y_inv := false, calibrated := true } ∧
    tp_read demo_cfg
        (tp_set_cal_values demo_cfg (.mk 2000 2000) (.mk 2000 2000) (.mk 2000 2000) (.mk 2000 2000)
          TpState.init)
        ⟨16, ⟨.mk 2000 2000 1⟩⟩ = none := by
  decide

/-! ## Divisions after a non-degenerate calibration -/

/-- A call of `tp_read` leaves the calibration data as it found them. -/
theorem tp_read_cal_of_some (cfg : Config) (s : TpState) (r : ReadOutcome) (res : TpReadResult)
    (h : tp_read cfg s r = some res) : res.st.cal = s.cal := by
  unfold tp_read at h
  split at h
  · cases h
    rfl
  · rw [Option.map_eq_some'] at h
    obtain ⟨t, ht, hres⟩ := h
    rw [← hres]
    show t.cal = s.cal
    split at ht
    · rw [Option.map_eq_some'] at ht
      obtain ⟨u, hu, hut⟩ := ht
      rw [← hut]
      split at hu
      · rw [Option.map_eq_some'] at hu
        obtain ⟨q, _, hq⟩ := hu
        rw [← hq]
        rfl
      · cases hu
        rfl
    · split at ht
      · cases ht
        rfl
      · cases ht
        rfl

/-- With both ranges non-zero, every call of `tp_read` has a result. -/
theorem tp_read_some_of_ranges (cfg : Config) (s : TpState) (r : ReadOutcome)
    (hx : s.x_range ≠ 0) (hy : s.y_range ≠ 0) : ∃ res, tp_read cfg s r = some res := by
  cases hres : tp_read cfg s r with
  | some res => exact ⟨res, rfl⟩
  | none =>
    rcases ((tp_read_eq_none_iff cfg s r).mp hres).2.2.2 with h | h
    · exact absurd h hx
    · exact absurd h hy

/-- With both ranges non-zero, every run of `tp_read` calls has a result for each call. -/
theorem tp_read_seq_some_of_ranges (cfg : Config) (rs : List ReadOutcome) :
    ∀ s : TpState, s.x_range ≠ 0 → s.y_range ≠ 0 →
      ∃ out, tp_read_seq cfg s rs = some out ∧ out.length = rs.length := by
  induction rs with
  | nil =>
    intro s _ _
    exact ⟨[], rfl, rfl⟩
  | cons r rs ih =>
    intro s hx hy
    obtain ⟨res, hres⟩ := tp_read_some_of_ranges cfg s r hx hy
    have hcal := tp_read_cal_of_some cfg s r res hres
    have hx2 : res.st.x_range ≠ 0 := by
      have e : res.st.x_range = s.x_range := congrArg CalData.x_range hcal
      rw [e]
      exact hx
    have hy2 : res.st.y_range ≠ 0 := by
      have e : res.st.y_range = s.y_range := congrArg CalData.y_range hcal
      rw [e]
      exact hy
    obtain ⟨out, hout, hlen⟩ := ih res.st hx2 hy2
    refine ⟨res :: out, ?_, ?_⟩
    · simp [tp_read_seq, hres, hout]
    · simp [hlen]

theorem c_abs_pos (n : Int) (h : n ≠ 0) : 0 < c_abs n := by
  unfold c_abs
  split <;> omega

/-- C11: after `tp_set_cal_values` on a state whose three flags are false (the initial
state), with `LV_HOR_RES >= 2` and corners such that `ul.y != ll.y` in the non-swapped case
(`|ul.x - ur.x| >= LV_HOR_RES / 2`) and `ul.y != ur.y`, `ul.x != ll.x` in the swapped case
(`|ul.x - ur.x| < LV_HOR_RES / 2`), the stored `x_range` and `y_range` are both strictly
positive, in the non-swapped case `x_range >= LV_HOR_RES / 2`, and the divisions of `tp_read`
are defined: every later call has a result, whatever `read()` delivers, and so has every
call in any run of later calls. The quotient `LV_HOR_RES / 2` is the truncating one of C,
which for `LV_HOR_RES >= 2` is also the flooring one. -/
theorem divisions_defined_after_calibration (cfg : Config) (ul ur lr ll : lv_point_t)
    (s : TpState)
    (hxy : s.xy_inv = false) (hxi : s.x_inv = false) (hyi : s.y_inv = false)
    (hH : 2 ≤ cfg.LV_HOR_RES)
    (h_ns : Int.tdiv cfg.LV_HOR_RES 2 ≤ |ul.x - ur.x| → ul.y ≠ ll.y)
    (h_sw : |ul.x - ur.x| < Int.tdiv cfg.LV_HOR_RES 2 → ul.y ≠ ur.y ∧ ul.x ≠ ll.x) :
    0 < (tp_set_cal_values cfg ul ur lr ll s).x_range ∧
    0 < (tp_set_cal_values cfg ul ur lr ll s).y_range ∧
    (Int.tdiv cfg.LV_HOR_RES 2 ≤ |ul.x - ur.x| →
      Int.tdiv cfg.LV_HOR_RES 2 ≤ (tp_set_cal_values cfg ul ur lr ll s).x_range) ∧
    Int.tdiv cfg.LV_HOR_RES 2 = cfg.LV_HOR_RES / 2 ∧
    (∀ r : ReadOutcome, ∃ res, tp_read cfg (tp_set_cal_values cfg ul ur lr ll s) r = some res) ∧
    (∀ rs : List ReadOutcome, ∃ out,
      tp_read_seq cfg (tp_set_cal_values cfg ul ur lr ll s) rs = some out ∧
      out.length = rs.length) := by
  obtain ⟨_, _, _, e4, e5, _, _, _⟩ :=
    tp_set_cal_values_fields cfg ul ur lr ll s hxy hxi hyi _ rfl
  have hdiv : Int.tdiv cfg.LV_HOR_RES 2 = cfg.LV_HOR_RES / 2 :=
    Int.tdiv_eq_ediv (by omega) (by decide)
  have hhalf : 1 ≤ Int.tdiv cfg.LV_HOR_RES 2 := by
    rw [hdiv]
    omega
  have hranges : 0 < (tp_set_cal_values cfg ul ur lr ll s).x_range ∧
      0 < (tp_set_cal_values cfg ul ur lr ll s).y_range ∧
      (Int.tdiv cfg.LV_HOR_RES 2 ≤ |ul.x - ur.x| →
        Int.tdiv cfg.LV_HOR_RES 2 ≤ (tp_set_cal_values cfg ul ur lr ll s).x_range) := by
    rw [e4, e5]
    by_cases hsw : c_abs (ul.x - ur.x) < Int.tdiv cfg.LV_HOR_RES 2
    · have hsw2 : |ul.x - ur.x| < Int.tdiv cfg.LV_HOR_RES 2 := by
        rw [← c_abs_eq_abs]
        exact hsw
      obtain ⟨hy1, hx1⟩ := h_sw hsw2
      have hd : decide (c_abs (ul.x - ur.x) < Int.tdiv cfg.LV_HOR_RES 2) = true :=
        decide_eq_true hsw
      rw [hd]
      simp only [raw_h, raw_v, if_true]
      refine ⟨c_abs_pos _ (by omega), c_abs_pos _ (by omega), ?_⟩
      intro hge
      omega
    · have hge : Int.tdiv cfg.LV_HOR_RES 2 ≤ |ul.x - ur.x| := by
        rw [← c_abs_eq_abs]
        omega
      have hy1 := h_ns hge
      have hd : decide (c_abs (ul.x - ur.x) < Int.tdiv cfg.LV_HOR_RES 2) = false :=
        decide_eq_false hsw
      rw [hd]
      simp only [raw_h, raw_v, Bool.false_eq_true, if_false]
      refine ⟨?_, c_abs_pos _ (by omega), ?_⟩
      · omega
      · intro _
        omega
  obtain ⟨hx, hy, hns⟩ := hranges
  exact ⟨hx, hy, hns, hdiv,
    fun r => tp_read_some_of_ranges cfg _ r (by omega) (by omega),
    fun rs => tp_read_seq_some_of_ranges cfg rs _ (by omega) (by omega)⟩

/-- Witness of C11: a swapped, doubly inverted panel calibrated in the initial state, then
a press, a short read and a release. -/
theorem divisions_defined_after_calibration_witness :
    (tp_set_cal_values demo_cfg (.mk 3900 3800) (.mk 3910 200) (.mk 100 210) (.mk 100 3800)
        TpState.init).x_range = 3600 ∧
    (tp_set_cal_values demo_cfg (.mk 3900 3800) (.mk 3910 200) (.mk 100 210) (.mk 100 3800)
        TpState.init).y_range = 3800 ∧
    0 < (tp_set_cal_values demo_cfg (.mk 3900 3800) (.mk 3910 200) (.mk 100 210) (.mk 100 3800)
        TpState.init).x_range ∧
    0 < (tp_set_cal_values demo_cfg (.mk 3900 3800) (.mk 3910 200) (.mk 100 210) (.mk 100 3800)
        TpState.init).y_range ∧
    ∃ out, tp_read_seq demo_cfg
        (tp_set_cal_values demo_cfg (.mk 3900 3800) (.mk 3910 200) (.mk 100 210) (.mk 100 3800)
          TpState.init)
        [⟨16, ⟨.mk 2000 2000 1⟩⟩, ⟨5, ⟨.mk 0 0 0⟩⟩, ⟨16, ⟨.mk 0 0 4⟩⟩] = some out ∧
      out.length = 3 :=
  have h := divisions_defined_after_calibration demo_cfg (.mk 3900 3800) (.mk 3910 200)
    (.mk 100 210)
    (.mk 100 3800) TpState.init rfl rfl rfl (by decide) (by decide) (by decide)
  ⟨by decide, by decide, h.1, h.2.1, h.2.2.2.2.2 _⟩

/-! ## `tp_init` -/

/-- C9: with `open()` returning the descriptor `open_ret`, `tp_init` returns `0` iff
`open_ret >= 0`, returns `2` iff `open_ret < 0`, never returns a negative value, and in both
cases stores `open_ret` in `fd`. -/
theorem tp_init_return_value (open_ret : Int) (s : TpState) :
    ((tp_init open_ret s).1 = 0 ↔ 0 ≤ open_ret) ∧
    ((tp_init open_ret s).1 = 2 ↔ open_ret < 0) ∧
    0 ≤ (tp_init open_ret s).1 ∧
    (tp_init open_ret s).2.fd = open_ret := by
  unfold tp_init OK
  by_cases h : open_ret < 0
  · simp [h]
  · simp [h]
    omega

end Tp

/-! ## `CWindowEvent::registerDragEventHandler` -/

namespace Twm4Nx

/-- C10: `registerDragEventHandler(h)` makes `h` the registered drag handler, for every state
of the object and every handler pointer `h` (null included): afterwards `m_dragHandler = h`
whatever was registered before, a second registration replaces the first, and `m_twm4nx`,
`m_eventq`, `m_object`, `m_isBackground`, `m_dragging` and `m_dragPos` are unchanged. -/
theorem registerDragEventHandler_sets_handler (self : CWindowEvent) (h h2 : Nat) :
    (self.registerDragEventHandler h).m_dragHandler = h ∧
    (self.registerDragEventHandler 0).m_dragHandler = 0 ∧
    ((self.registerDragEventHandler h).registerDragEventHandler h2).m_dragHandler = h2 ∧
    (self.registerDragEventHandler h).m_twm4nx = self.m_twm4nx ∧
    (self.registerDragEventHandler h).m_eventq = self.m_eventq ∧
    (self.registerDragEventHandler h).m_object = self.m_object ∧
    (self.registerDragEventHandler h).m_isBackground = self.m_isBackground ∧
    (self.registerDragEventHandler h).m_dragging = self.m_dragging ∧
    (self.registerDragEventHandler h).m_dragPos = self.m_dragPos :=
  ⟨rfl, rfl, rfl, rfl, rfl, rfl, rfl, rfl, rfl⟩

end Twm4Nx
